import Mathlib

/-!
Shallow embedding of the analytics core of the Reliant Windows ERP/CRM
prototype (summary_generator.py, price_predictor.py,
customer_segmentation.py), together with theorems settling the frozen
claims about this code.

Modelling conventions:
* Python floats are modelled by exact rationals (ℚ); `round` and the
  `"%.2f"` / `"{:,.2f}"` format specifiers are modelled by exact
  round-half-to-even on the rational value.
* Python dictionaries with optional keys are modelled by structures with
  `Option` fields; `dict.get(k, d)` becomes `Option.getD`, and the Python
  `x or d` idiom (which also replaces falsy values) is modelled explicitly.
* External learned components (the transformers summarization pipeline,
  the fitted sklearn regression, the sklearn scaler + k-means step) are
  parameters of the embedded functions: the repository code treats them as
  opaque callables, and the theorems quantify over their behaviour.
-/

/-- Round-half-to-even of a rational to an integer: exact model of Python's
`round` on the mathematical value of a float (`Rat.floor` is used rather
than `⌊·⌋` to keep the definition kernel-reducible). -/
def pyRound (q : ℚ) : ℤ :=
  let f := q.floor
  let r := q - (f : ℚ)
  if r < 1/2 then f
  else if 1/2 < r then f + 1
  else if f % 2 = 0 then f else f + 1

/-- Model of Python's `round(x, 2)`: round to two decimal places. -/
def pyRound2 (q : ℚ) : ℚ := (pyRound (q * 100) : ℚ) / 100

/-- Decimal digits of a natural number, as in Python's `str(n)`. -/
def natDecimal (n : Nat) : String := toString n

/-- Insert a comma after every third character of a reversed digit list:
helper for the thousands grouping of Python's `"{:,}"` format. -/
def groupRev : List Char → List Char
  | [] => []
  | [a] => [a]
  | [a, b] => [a, b]
  | [a, b, c] => [a, b, c]
  | a :: b :: c :: d :: rest => a :: b :: c :: ',' :: groupRev (d :: rest)

/-- Model of Python's `f"{q:,.2f}"`: two decimal places, comma thousands
grouping, sign taken from the value. -/
def formatComma2 (q : ℚ) : String :=
  let cents := (pyRound (q * 100)).natAbs
  let ip := cents / 100
  let fp := cents % 100
  let ipStr := String.mk ((groupRev (natDecimal ip).data.reverse).reverse)
  let fpStr := (if fp < 10 then "0" else "") ++ natDecimal fp
  (if q < 0 then "-" else "") ++ ipStr ++ "." ++ fpStr

/-- Model of Python's `f"{q:.2f}"`: two decimal places, no grouping. -/
def formatFixed2 (q : ℚ) : String :=
  let cents := (pyRound (q * 100)).natAbs
  let ip := cents / 100
  let fp := cents % 100
  let fpStr := (if fp < 10 then "0" else "") ++ natDecimal fp
  (if q < 0 then "-" else "") ++ natDecimal ip ++ "." ++ fpStr

/-- Does the second list occur at the head of the first? -/
def listStarts : List Char → List Char → Bool
  | [], _ => true
  | _ :: _, [] => false
  | p :: ps, c :: cs => p == c && listStarts ps cs

/-- Does `pat` occur contiguously somewhere inside `s`? -/
def listHasSub (pat : List Char) : List Char → Bool
  | [] => pat.isEmpty
  | c :: rest => listStarts pat (c :: rest) || listHasSub pat rest

/-- Substring test on strings: `hasSub s pat` holds when `pat` occurs inside
`s` (model of Python's `pat in s`). -/
def hasSub (s pat : String) : Bool := listHasSub pat.data s.data

/-- Number of whitespace-separated words, as computed by Python's
`str.split()` with no arguments (runs of whitespace collapse, leading and
trailing whitespace ignored). -/
def pyWordCount (s : String) : Nat :=
  ((s.split Char.isWhitespace).filter (fun w => w ≠ "")).length

/-- Stable insertion of `x` into `l`: `x` goes after every element `h` with
`le h x`. -/
def insertS (le : α → α → Bool) (x : α) : List α → List α
  | [] => [x]
  | h :: t => if le h x then h :: insertS le x t else x :: h :: t

/-- Stable insertion sort (elements compared with the boolean relation `le`;
equal elements keep their input order). -/
def sortS (le : α → α → Bool) (l : List α) : List α :=
  l.foldl (fun acc x => insertS le x acc) []

/-! ## summary_generator.py -/

/-- One entry of the `product_list` argument: a Python dict with optional
keys, as consumed by `_build_source_text` and `_fallback_summary`. -/
structure SItem where
  name : Option String := none
  category : Option String := none
  quantity : Option Int := none
  width_ft : Option ℚ := none
  height_ft : Option ℚ := none
deriving DecidableEq

/-- Effective item name in `_build_source_text`: `p.get("name") or "Item"`
(missing and empty names both fall back). -/
def itemName (p : SItem) : String :=
  match p.name with
  | some s => if s = "" then "Item" else s
  | none => "Item"

/-- Effective category: `p.get("category") or "General"`. -/
def itemCategory (p : SItem) : String :=
  match p.category with
  | some s => if s = "" then "General" else s
  | none => "General"

/-- Effective quantity: `p.get("quantity") or 1` (missing and zero both
fall back to 1). -/
def itemQuantity (p : SItem) : Int :=
  match p.quantity with
  | some q => if q = 0 then 1 else q
  | none => 1

/-- Dimension rendering of `_build_source_text`: `"W.WWft x H.HHft"` when
both dimensions are present (an unparsable dimension is modelled as
absent), else `"N/A"`. -/
def itemDims (p : SItem) : String :=
  match p.width_ft, p.height_ft with
  | some w, some h => formatFixed2 w ++ "ft x " ++ formatFixed2 h ++ "ft"
  | _, _ => "N/A"

/-- One numbered item line of `_build_source_text`. -/
def itemLine (i : Nat) (p : SItem) : String :=
  "- " ++ natDecimal i ++ ". " ++ itemName p ++ " (" ++ itemCategory p ++
    "), Qty: " ++ toString (itemQuantity p) ++ ", Size: " ++ itemDims p

/-- Numbered item lines, from `enumerate(product_list, 1)`. -/
def itemLines (i : Nat) : List SItem → List String
  | [] => []
  | p :: ps => itemLine i p :: itemLines (i + 1) ps

/-- Model of `_build_source_text`: the deterministic source description fed
to the summarization step. -/
def build_source_text (customer_name : String) (product_list : List SItem)
    (total_amount : ℚ) : String :=
  String.intercalate " "
    (["Customer: " ++ customer_name ++ ".",
      "Total quoted amount: $" ++ formatComma2 total_amount ++ ".",
      "Items:"] ++
     itemLines 1 product_list ++
     ["Scope includes supply and installation to Reliant Windows standards, final site measurements prior to fabrication, and warranty-backed workmanship."])

/-- Model of `_is_t5_family`: `"t5" in name.lower()`. -/
def is_t5_family (name : String) : Bool := hasSub name.toLower "t5"

/-- Model of `_dynamic_lengths` (summary_generator.py lines 103-114):
derive (min, max) decoding lengths from the word count of the input,
with `int(wc * 0.8)` and `int(wc * 0.4)` modelled by exact floored
natural arithmetic. `maxLen`/`minLen` are the configured SUMMARY_MAX_LEN /
SUMMARY_MIN_LEN bounds. -/
def dynamic_lengths (maxLen minLen : Nat) (text : String) : Nat × Nat :=
  let wc := max 1 (pyWordCount text)
  let dynMax := min maxLen (max 48 (wc * 8 / 10))
  let dynMin := min minLen (max 24 (wc * 4 / 10))
  if dynMax ≤ dynMin then (max 16 (dynMax - 8), dynMax) else (dynMin, dynMax)

/-- The formulas of the specification for the derived decoding lengths,
stated over the word count with exact rational multiplication and floor:
`max = min(configured_max, max(48, 0.8 × wc))`,
`min = min(configured_min, max(24, 0.4 × wc))`, and the degenerate-case
reduction `min := max(16, max − 8)` when `min ≥ max`. -/
def dynamicLengthsSpec (maxLen minLen wc : Nat) : Nat × Nat :=
  let dynMax := min maxLen (max 48 (Int.toNat ⌊(8 / 10 : ℚ) * wc⌋))
  let dynMin := min minLen (max 24 (Int.toNat ⌊(4 / 10 : ℚ) * wc⌋))
  if dynMin ≥ dynMax then (max 16 (dynMax - 8), dynMax) else (dynMin, dynMax)

/-- Fallback item name in `_fallback_summary`: `p.get("name") or "product"`. -/
def fallbackName (p : SItem) : String :=
  match p.name with
  | some s => if s = "" then "product" else s
  | none => "product"

/-- Distinct fallback names in order of first occurrence (the `seen` /
`names` loop of `_fallback_summary`). -/
def distinctNames (product_list : List SItem) : List String :=
  product_list.foldl
    (fun acc p => if fallbackName p ∈ acc then acc else acc ++ [fallbackName p]) []

/-- Model of `_fallback_summary` (summary_generator.py lines 139-151): the
deterministic template summary. -/
def fallback_summary (customer_name : String) (product_list : List SItem)
    (total_amount : ℚ) : String :=
  let names := distinctNames product_list
  let nameStr :=
    if names = [] then "the specified products"
    else String.intercalate ", " (names.take 6) ++
      (if 6 < names.length then "..." else "")
  "This quotation for " ++ customer_name ++
    " covers supply and installation of " ++ natDecimal product_list.length ++
    " item type(s) (" ++ nameStr ++ ") with a total value of $" ++
    formatComma2 total_amount ++
    ". The scope includes site verification, fabrication to final measurements, and installation aligned with Reliant Windows standards."

/-- The text actually handed to the summarization pipeline by `_summarize`:
the source text, with the `"summarize: "` task prefix when the configured
model identifier is in the t5 family. -/
def modelInputText (modelName : String) (customer_name : String)
    (product_list : List SItem) (total_amount : ℚ) : String :=
  let src := build_source_text customer_name product_list total_amount
  if is_t5_family modelName then "summarize: " ++ src else src

/-- Model of `generate_quote_summary` (summary_generator.py lines 153-161).
The learned path is a parameter: `pipe = none` models an unavailable
pipeline (`_load_pipeline` returned `None`); `pipe = some f` models a
loaded pipeline, where `f text dynMin dynMax` is the invocation with the
derived decoding lengths and `none` models an exception during invocation
or decoding. Any failure yields the template fallback; a success is
returned trimmed (`.strip()`). -/
def generate_quote_summary (maxLen minLen : Nat) (modelName : String)
    (pipe : Option (String → Nat → Nat → Option String))
    (customer_name : String) (product_list : List SItem)
    (total_amount : ℚ) : String :=
  match pipe with
  | none => fallback_summary customer_name product_list total_amount
  | some f =>
    let text := modelInputText modelName customer_name product_list total_amount
    let lens := dynamic_lengths maxLen minLen text
    match f text lens.1 lens.2 with
    | none => fallback_summary customer_name product_list total_amount
    | some out => out.trim

/-! ## _load_pipeline state (summary_generator.py lines 50-79) -/

/-- The module-level mutable state of summary_generator.py: the cached
pipeline handle `_PIPELINE` (handles modelled as natural numbers) and the
last error message `_LAST_ERR`. -/
structure SumState where
  pipeline : Option Nat := none
  lastErr : Option String := none
deriving DecidableEq

/-- Outcome of the two acquisition routes for one call: `anon` is the
result of the anonymous/cached load attempt, `tokenLoad` the result of the
credential-based attempt (`none` = the attempt raises). -/
structure AcqEnv where
  anon : Option Nat := none
  tokenLoad : Option Nat := none
deriving DecidableEq

/-- Model of `_load_pipeline`: given whether a credential is configured
(`hfToken`), this call's acquisition outcomes, and the current module
state, return (result, new state, number of acquisition attempts made by
this call). A cached pipeline is returned with no attempt; otherwise the
anonymous attempt runs, then the credential attempt when a credential is
configured; only a successful load is stored in the state. -/
def load_pipeline (hfToken : Bool) (env : AcqEnv) (st : SumState) :
    Option Nat × SumState × Nat :=
  match st.pipeline with
  | some p => (some p, st, 0)
  | none =>
    match env.anon with
    | some p => (some p, ⟨some p, none⟩, 1)
    | none =>
      if hfToken then
        match env.tokenLoad with
        | some p => (some p, ⟨some p, none⟩, 2)
        | none => (none, ⟨none, some "Token load failed"⟩, 2)
      else (none, ⟨none, some "Anonymous load failed"⟩, 1)

/-- The result of `_load_pipeline`, as seen by `_summarize`. -/
def load_pipeline_result (hfToken : Bool) (env : AcqEnv) (st : SumState) :
    Option Nat :=
  (load_pipeline hfToken env st).1

/-- The module state after a call to `_load_pipeline`. -/
def load_pipeline_state (hfToken : Bool) (env : AcqEnv) (st : SumState) :
    SumState :=
  (load_pipeline hfToken env st).2.1

/-- How many acquisition attempts (anonymous and/or credential loads) a
call to `_load_pipeline` performs. -/
def load_pipeline_attempts (hfToken : Bool) (env : AcqEnv) (st : SumState) :
    Nat :=
  (load_pipeline hfToken env st).2.2

/-! ## price_predictor.py -/

/-- One row of the `quotation_item` table, as selected by the training
query (the `product_id` foreign key may reference a missing product). -/
structure QItemRow where
  quantity : ℚ
  width_ft : ℚ
  height_ft : ℚ
  unit_price : ℚ
  line_total : ℚ
  product_id : Nat
deriving DecidableEq

/-- One row of the `product` table (the columns the training query reads). -/
structure ProductRow where
  id : Nat
  category : String
  base_cost_per_sqft : ℚ
deriving DecidableEq

/-- One training row produced by the SQL inner join of `quotation_item`
with `product` on `qi.product_id = p.id`. -/
structure TrainRow where
  quantity : ℚ
  width_ft : ℚ
  height_ft : ℚ
  unit_price : ℚ
  line_total : ℚ
  category : String
  base_cost_per_sqft : ℚ
deriving DecidableEq

/-- The joined row for a matched (item, product) pair. -/
def mkTrainRow (qi : QItemRow) (p : ProductRow) : TrainRow :=
  ⟨qi.quantity, qi.width_ft, qi.height_ft, qi.unit_price, qi.line_total,
    p.category, p.base_cost_per_sqft⟩

/-- Model of the training query's inner join: one row per (item, product)
pair with `qi.product_id = p.id`; items whose product reference does not
resolve contribute no row. -/
def joinTrainingRows (items : List QItemRow) (products : List ProductRow) :
    List TrainRow :=
  items.flatMap fun qi =>
    products.filterMap fun p =>
      if qi.product_id = p.id then some (mkTrainRow qi p) else none

/-- Model of `train_and_save_model` (price_predictor.py lines 29-71): pulls
the joined rows, fails when there are none, and otherwise fits and returns
the model. The sklearn fitting step (one-hot encoding + linear regression
over area/quantity/base cost) is the opaque parameter `fit`, applied to
exactly the joined rows; persistence to disk is outside the embedding. -/
def train_and_save_model (fit : List TrainRow → α) (items : List QItemRow)
    (products : List ProductRow) : Except String α :=
  let rows := joinTrainingRows items products
  if rows = [] then
    .error "No data available to train the price predictor. Seed the DB first."
  else .ok (fit rows)

/-- One entry of the `product_list` argument of `predict_quote_total`: a
dict with optional keys (`dict.get` with explicit defaults, so a present
zero is kept, unlike the summary module's `or` defaults). -/
structure PredItem where
  category : Option String := none
  width_ft : Option ℚ := none
  height_ft : Option ℚ := none
  quantity : Option Int := none
  base_cost_per_sqft : Option ℚ := none
deriving DecidableEq

/-- One feature row handed to the fitted model by `predict_quote_total`. -/
structure PredRow where
  category : String
  area : ℚ
  quantity : Int
  base_cost_per_sqft : ℚ
deriving DecidableEq

/-- Feature construction of `predict_quote_total`: `area = width × height`
with missing dimensions defaulting to 0, `category` defaulting to
`"Unknown"`, `quantity` to 1 and `base_cost_per_sqft` to 0. -/
def toPredRow (item : PredItem) : PredRow :=
  { category := item.category.getD "Unknown"
    area := item.width_ft.getD 0 * item.height_ft.getD 0
    quantity := item.quantity.getD 1
    base_cost_per_sqft := item.base_cost_per_sqft.getD 0 }

/-- Model of `predict_quote_total` (price_predictor.py lines 91-120). The
loaded artifact is the parameter `model`, giving the raw per-row
`line_total` prediction; the function clamps each prediction at 0
(`np.maximum(preds, 0)`), sums, and rounds to two decimals. An empty item
list short-circuits to 0.0 before the model is invoked. -/
def predict_quote_total (model : PredRow → ℚ) (product_list : List PredItem) : ℚ :=
  let rows := product_list.map toPredRow
  if rows = [] then 0
  else pyRound2 ((rows.map fun r => max (model r) 0).sum)

/-! ## customer_segmentation.py -/

/-- One quotation of a customer, with the columns the segmentation reads
(`total_amount` and `timestamp` are nullable; timestamps are modelled as
integer epoch seconds, naive UTC). -/
structure QuotationRec where
  total_amount : Option ℚ := none
  timestamp : Option Int := none
deriving DecidableEq

/-- One customer with their quotation history. -/
structure CustomerRec where
  id : Nat
  name : String
  quotations : List QuotationRec := []
deriving DecidableEq

/-- One row of the per-customer feature frame built by
`_build_feature_frame`. -/
structure FeatureRow where
  customer_id : Nat
  customer_name : String
  total_quotes : Nat
  total_value : ℚ
  avg_value : ℚ
  days_since_last : Int
deriving DecidableEq

/-- Model of one iteration of `_build_feature_frame`'s loop (customer
segmentation lines 38-62): quotations sorted most-recent-first by
`timestamp or now`, totals with `or 0.0`, sum/mean (0.0 when empty),
recency in whole days (timedelta `.days` floors), sentinel 10000 when
there is no quotation or no timestamp, and two-decimal rounding of the
value features. -/
def featureRow (now : Int) (c : CustomerRec) : FeatureRow :=
  let qs := sortS
    (fun q1 q2 => decide ((q2.timestamp.getD now) ≤ (q1.timestamp.getD now)))
    c.quotations
  let totals := qs.map fun q => q.total_amount.getD 0
  let total_value : ℚ := totals.sum
  let avg_value : ℚ := if totals = [] then 0 else totals.sum / (totals.length : ℚ)
  let dsl : Int :=
    match qs with
    | [] => 10000
    | q :: _ =>
      match q.timestamp with
      | some ts => Int.fdiv (now - ts) 86400
      | none => 10000
  ⟨c.id, c.name, qs.length, pyRound2 total_value, pyRound2 avg_value, dsl⟩

/-- Model of `_build_feature_frame`: one feature row per customer, in query
order. -/
def build_feature_frame (now : Int) (customers : List CustomerRec) :
    List FeatureRow :=
  customers.map (featureRow now)

/-- The four numeric features selected into `X` (`feat_cols`), as rationals
(`astype(float)`). -/
def featVec (r : FeatureRow) : ℚ × ℚ × ℚ × ℚ :=
  ((r.total_quotes : ℚ), r.total_value, r.avg_value, (r.days_since_last : ℚ))

/-- Per-cluster aggregate of `_label_clusters`: the cluster id with the
mean total_value, mean total_quotes and mean days_since_last of its rows. -/
structure AggMean where
  cluster : Nat
  mtv : ℚ
  mtq : ℚ
  mdsl : ℚ
deriving DecidableEq

/-- Rows of the labelled frame assigned to cluster `j`. -/
def clusterGroup (dfc : List (FeatureRow × Nat)) (j : Nat) :
    List (FeatureRow × Nat) :=
  dfc.filter fun rc => rc.2 == j

/-- Aggregate means for cluster `j` (the `groupby(cluster).agg(mean)` row). -/
def aggMeans (dfc : List (FeatureRow × Nat)) (j : Nat) : AggMean :=
  let g := clusterGroup dfc j
  let n : ℚ := (g.length : ℚ)
  ⟨j, (g.map fun rc => rc.1.total_value).sum / n,
    (g.map fun rc => (rc.1.total_quotes : ℚ)).sum / n,
    (g.map fun rc => (rc.1.days_since_last : ℚ)).sum / n⟩

/-- Pandas `rank(method="min")` of value `v` within the column `vals`:
one plus the number of strictly smaller entries. -/
def rankMin (vals : List ℚ) (v : ℚ) : ℚ :=
  ((1 + vals.countP fun x => decide (x < v) : Nat) : ℚ)

/-- Composite cluster score of `_label_clusters`:
`0.6·rank(total_value) + 0.3·rank(total_quotes) + 0.1·rank(−days_since_last)`,
all ranks ascending with minimum-rank ties. -/
def scoreOf (agg : List AggMean) (a : AggMean) : ℚ :=
  (3/5) * rankMin (agg.map fun x => x.mtv) a.mtv +
  (3/10) * rankMin (agg.map fun x => x.mtq) a.mtq +
  (1/10) * rankMin (agg.map fun x => -x.mdsl) (-a.mdsl)

/-- The sorted cluster ids present in the labelled frame (`groupby` lists
its keys in ascending order). -/
def presentClusters (dfc : List (FeatureRow × Nat)) : List Nat :=
  sortS (fun a b => decide (a ≤ b)) (dfc.map Prod.snd).dedup

/-- The aggregate table of `_label_clusters`, sorted by score descending. -/
def sortedAgg (dfc : List (FeatureRow × Nat)) : List AggMean :=
  let agg := (presentClusters dfc).map (aggMeans dfc)
  sortS (fun a b => decide (scoreOf agg b ≤ scoreOf agg a)) agg

/-- The friendly label for rank position `i` in the score-sorted aggregate
table. -/
def baseLabel (i : Nat) : String :=
  if i = 0 then "High-Value Frequent"
  else if i = 1 then "Occasional"
  else if i = 2 then "Dormant/Low"
  else "Segment " ++ natDecimal (i + 1)

/-- Model of `_label_clusters` as the label map: the label of cluster id
`c` is determined by its position in the score-sorted aggregate table (a
cluster id absent from the frame has no entry in the dict; that case,
which cannot arise, is rendered as the empty label). -/
def label_clusters (dfc : List (FeatureRow × Nat)) (c : Nat) : String :=
  match (sortedAgg dfc).findIdx? (fun a => a.cluster == c) with
  | some i => baseLabel i
  | none => ""

/-- One row of the result table of `compute_customer_segments`. -/
structure SegRow where
  customer_id : Nat
  customer_name : String
  segment : String
  total_quotes : Nat
  total_value : ℚ
  avg_value : ℚ
  days_since_last : Int
deriving DecidableEq

/-- A feature row with its segment label, as selected into the output. -/
def mkSegRow (r : FeatureRow) (seg : String) : SegRow :=
  ⟨r.customer_id, r.customer_name, seg, r.total_quotes, r.total_value,
    r.avg_value, r.days_since_last⟩

/-- A pandas DataFrame result, as its ordered column names plus its rows. -/
structure Frame where
  cols : List String
  rows : List SegRow
deriving DecidableEq

/-- Columns of the feature frame returned by the zero-customer branch. -/
def featureCols : List String :=
  ["customer_id", "customer_name", "total_quotes", "total_value",
    "avg_value", "days_since_last"]

/-- Columns of the labelled result selected on the non-empty branch. -/
def outCols : List String :=
  ["customer_id", "customer_name", "segment", "total_quotes", "total_value",
    "avg_value", "days_since_last"]

/-- Final presentation order: segment label ascending (pandas compares the
label strings lexicographically by code point), then total_value
descending. -/
def rowLe (a b : SegRow) : Bool :=
  decide (a.segment < b.segment) ||
    (a.segment == b.segment && decide (b.total_value ≤ a.total_value))

/-- The labelled, presentation-sorted rows of the non-empty branch of
`compute_customer_segments`: zip the feature rows with their cluster ids,
attach the friendly label of each row's cluster, and sort by (segment
label ascending, total_value descending). -/
def seg_rows (clusterer : List (ℚ × ℚ × ℚ × ℚ) → List Nat) (now : Int)
    (customers : List CustomerRec) : List SegRow :=
  let df := build_feature_frame now customers
  let dfc := df.zip (clusterer (df.map featVec))
  sortS rowLe (dfc.map fun rc => mkSegRow rc.1 (label_clusters dfc rc.2))

/-- Model of `compute_customer_segments` (customer_segmentation.py lines
107-141). The external scaler + k-means step is the parameter `clusterer`
(a cluster id per feature row); per sklearn's contract, `KMeans.fit`
raises when `n_clusters < 1` or when there are fewer samples than
clusters, modelled as the error cases. The zero-customer branch returns
the empty feature frame (its six columns) unchanged. -/
def compute_customer_segments (clusterer : List (ℚ × ℚ × ℚ × ℚ) → List Nat)
    (now : Int) (k : Nat) (customers : List CustomerRec) :
    Except String Frame :=
  let df := build_feature_frame now customers
  if df = [] then .ok ⟨featureCols, []⟩
  else if k = 0 then .error "n_clusters should be >= 1"
  else if df.length < k then .error "n_samples should be >= n_clusters"
  else
    .ok ⟨outCols, seg_rows clusterer now customers⟩

/-! ## Concrete fixtures and derived orderings used by the theorems -/

/-- The presentation order of the output rows, as a proposition: segment
label strictly before, or same label and total_value at least as large. -/
def segOrder (a b : SegRow) : Prop :=
  a.segment < b.segment ∨ (a.segment = b.segment ∧ b.total_value ≤ a.total_value)

/-- Customer ids with their segment labels, extracted from a segmentation
result (empty for an error result). -/
def segListOf (r : Except String Frame) : List (Nat × String) :=
  match r with
  | .ok f => f.rows.map fun x => (x.customer_id, x.segment)
  | .error _ => []

/-- The single item of the specification's concrete summarization example. -/
def wItem : SItem :=
  { name := some "Window A", category := some "Casement", quantity := some 2 }

/-- A fitted model that predicts a negative line total for every row (to
exercise the clamping). -/
def negModel : PredRow → ℚ := fun _ => -5

/-- A line item whose product reference resolves. -/
def qiMatched : QItemRow := ⟨2, 3, 4, 100, 200, 1⟩

/-- A line item whose product reference does not resolve. -/
def qiOrphan : QItemRow := ⟨1, 1, 1, 50, 50, 99⟩

/-- The single product of the training fixture. -/
def prodOne : ProductRow := ⟨1, "Casement", 12⟩

/-- Segmentation fixture: a frequent, recent, high-value customer. -/
def custA : CustomerRec := ⟨1, "A", [⟨some 1000, some 0⟩, ⟨some 900, some 0⟩]⟩

/-- Segmentation fixture: an occasional customer. -/
def custB : CustomerRec := ⟨2, "B", [⟨some 100, some 0⟩]⟩

/-- Segmentation fixture: a customer with no quotations. -/
def custC : CustomerRec := ⟨3, "C", []⟩

/-- A clusterer that puts every row in its own cluster, in row order. -/
def rangeClusterer : List (ℚ × ℚ × ℚ × ℚ) → List Nat :=
  fun v => List.range v.length

/-- Output row of the A/B/C fixture for customer A. -/
def segRowA : SegRow := ⟨1, "A", "High-Value Frequent", 2, 1900, 950, 0⟩

/-- Output row of the A/B/C fixture for customer B. -/
def segRowB : SegRow := ⟨2, "B", "Occasional", 1, 100, 100, 0⟩

/-- Output row of the A/B/C fixture for customer C. -/
def segRowC : SegRow := ⟨3, "C", "Dormant/Low", 0, 0, 0, 10000⟩

/-- Order-sensitivity fixture: a mid-value customer. -/
def custM : CustomerRec := ⟨1, "M", [⟨some 500, some 0⟩]⟩

/-- Order-sensitivity fixture: a high-value customer. -/
def custH : CustomerRec := ⟨2, "H", [⟨some 2000, some 0⟩]⟩

/-- Order-sensitivity fixture: a customer with no quotations. -/
def custL : CustomerRec := ⟨3, "L", []⟩

/-- A clustering outcome that groups the first two rows together and the
third alone — one of the partitions a seeded k-means run may produce on
three samples with two clusters, and one whose composition follows the
positions of the rows, not their contents. -/
def posClusterer : List (ℚ × ℚ × ℚ × ℚ) → List Nat := fun _ => [0, 0, 1]

/-- A per-row assignment function (cluster by total_value threshold),
giving a row-content-determined clusterer for the invariance theorem. -/
def valueAssign : List (ℚ × ℚ × ℚ × ℚ) → (ℚ × ℚ × ℚ × ℚ) → Nat :=
  fun _ fv => if 500 ≤ fv.2.1 then 0 else 1

/-- The clusterer induced by `valueAssign`. -/
def valueClusterer : List (ℚ × ℚ × ℚ × ℚ) → List Nat :=
  fun rows => rows.map (valueAssign rows)

/-! ## General lemmas about the helper functions -/

theorem insertS_perm (le : α → α → Bool) (x : α) (l : List α) :
    (insertS le x l).Perm (x :: l) := by
  induction l with
  | nil => exact List.Perm.refl _
  | cons h t ih =>
    by_cases hc : le h x = true
    · simpa [insertS, hc] using ((ih.cons h).trans (List.Perm.swap x h t))
    · simp [insertS, hc]

theorem sortS_perm_aux (le : α → α → Bool) (l acc : List α) :
    (l.foldl (fun acc x => insertS le x acc) acc).Perm (acc ++ l) := by
  induction l generalizing acc with
  | nil => simp
  | cons h t ih =>
    have step : (insertS le h acc ++ t).Perm (acc ++ h :: t) := by
      have h1 : (insertS le h acc).Perm (h :: acc) := insertS_perm le h acc
      exact (h1.append_right t).trans (List.perm_middle.symm)
    simpa [List.foldl_cons] using (ih (insertS le h acc)).trans step

theorem sortS_perm (le : α → α → Bool) (l : List α) :
    (sortS le l).Perm l := by
  simpa [sortS] using sortS_perm_aux le l []

theorem mem_insertS (le : α → α → Bool) (x y : α) (l : List α) :
    y ∈ insertS le x l ↔ y = x ∨ y ∈ l := by
  have := (insertS_perm le x l).mem_iff (a := y)
  simpa using this

theorem insertS_pairwise (le : α → α → Bool)
    (htot : ∀ a b, le a b = true ∨ le b a = true)
    (htrans : ∀ a b c, le a b = true → le b c = true → le a c = true)
    (x : α) (l : List α) (hl : l.Pairwise fun a b => le a b = true) :
    (insertS le x l).Pairwise fun a b => le a b = true := by
  induction l with
  | nil => simp [insertS]
  | cons h t ih =>
    rcases List.pairwise_cons.mp hl with ⟨hh, ht⟩
    by_cases hc : le h x = true
    · rw [insertS, if_pos hc]
      refine List.pairwise_cons.mpr ⟨?_, ih ht⟩
      intro y hy
      rcases (mem_insertS le x y t).mp hy with rfl | hyt
      · exact hc
      · exact hh y hyt
    · have hxh : le x h = true := by
        rcases htot x h with h1 | h1
        · exact h1
        · exact absurd h1 hc
      rw [insertS, if_neg hc]
      refine List.pairwise_cons.mpr ⟨?_, hl⟩
      intro y hy
      rcases List.mem_cons.mp hy with rfl | hyt
      · exact hxh
      · exact htrans x h y hxh (hh y hyt)

theorem sortS_pairwise_aux (le : α → α → Bool)
    (htot : ∀ a b, le a b = true ∨ le b a = true)
    (htrans : ∀ a b c, le a b = true → le b c = true → le a c = true)
    (l acc : List α) (hacc : acc.Pairwise fun a b => le a b = true) :
    (l.foldl (fun acc x => insertS le x acc) acc).Pairwise
      fun a b => le a b = true := by
  induction l generalizing acc with
  | nil => simpa using hacc
  | cons h t ih =>
    simpa [List.foldl_cons] using
      ih (insertS le h acc) (insertS_pairwise le htot htrans h acc hacc)

theorem sortS_pairwise (le : α → α → Bool)
    (htot : ∀ a b, le a b = true ∨ le b a = true)
    (htrans : ∀ a b c, le a b = true → le b c = true → le a c = true)
    (l : List α) :
    (sortS le l).Pairwise fun a b => le a b = true :=
  sortS_pairwise_aux le htot htrans l [] (List.Pairwise.nil)

theorem natLeB_total (a b : Nat) :
    decide (a ≤ b) = true ∨ decide (b ≤ a) = true := by
  rcases Nat.le_total a b with h | h
  · exact Or.inl (decide_eq_true h)
  · exact Or.inr (decide_eq_true h)

theorem natLeB_trans (a b c : Nat) (h1 : decide (a ≤ b) = true)
    (h2 : decide (b ≤ c) = true) : decide (a ≤ c) = true :=
  decide_eq_true (Nat.le_trans (of_decide_eq_true h1) (of_decide_eq_true h2))

/-- Sorting with `≤` on `Nat` maps permuted inputs to the same output. -/
theorem sortS_nat_eq_of_perm (l1 l2 : List Nat) (p : l1.Perm l2) :
    sortS (fun a b => decide (a ≤ b)) l1 =
      sortS (fun a b => decide (a ≤ b)) l2 := by
  have p2 : (sortS (fun a b => decide (a ≤ b)) l1).Perm
      (sortS (fun a b => decide (a ≤ b)) l2) :=
    ((sortS_perm _ l1).trans p).trans (sortS_perm _ l2).symm
  have s1 := sortS_pairwise (fun a b => decide (a ≤ b)) natLeB_total natLeB_trans l1
  have s2 := sortS_pairwise (fun a b => decide (a ≤ b)) natLeB_total natLeB_trans l2
  have s1' : (sortS (fun a b => decide (a ≤ b)) l1).Sorted (· ≤ ·) :=
    s1.imp fun h => of_decide_eq_true h
  have s2' : (sortS (fun a b => decide (a ≤ b)) l2).Sorted (· ≤ ·) :=
    s2.imp fun h => of_decide_eq_true h
  exact List.eq_of_perm_of_sorted p2 s1' s2'

/-- The computable `Rat.floor` agrees with the `⌊·⌋` of the order
structure. -/
theorem ratFloor_eq_floor (q : ℚ) : q.floor = ⌊q⌋ := by
  rw [Rat.floor_def, Rat.floor_def']

theorem pyRound_nonneg (q : ℚ) (h : 0 ≤ q) : 0 ≤ pyRound q := by
  have hf : 0 ≤ q.floor := by
    rw [ratFloor_eq_floor]
    exact Int.floor_nonneg.mpr h
  unfold pyRound
  simp only []
  split
  · exact hf
  · split
    · omega
    · split
      · exact hf
      · omega

theorem pyRound2_nonneg (q : ℚ) (h : 0 ≤ q) : 0 ≤ pyRound2 q := by
  unfold pyRound2
  have h100 : (0 : ℚ) ≤ q * 100 := by positivity
  have := pyRound_nonneg (q * 100) h100
  have hcast : (0 : ℚ) ≤ (pyRound (q * 100) : ℚ) := by exact_mod_cast this
  positivity

/-- Floor of `(a/b) × n` over ℚ equals the natural division `n * a / b`. -/
theorem floor_ratio_mul (a b n : ℕ) :
    Int.toNat ⌊((a : ℚ) / (b : ℚ)) * (n : ℚ)⌋ = n * a / b := by
  have h1 : ((a : ℚ) / (b : ℚ)) * (n : ℚ) = ((n * a : ℕ) : ℚ) / ((b : ℕ) : ℚ) := by
    push_cast
    ring
  rw [h1, Rat.floor_natCast_div_natCast, ← Int.ofNat_ediv, Int.toNat_natCast]

theorem floor_eight_tenths (n : ℕ) :
    Int.toNat ⌊(8 / 10 : ℚ) * (n : ℚ)⌋ = n * 8 / 10 := by
  simpa using floor_ratio_mul 8 10 n

theorem floor_four_tenths (n : ℕ) :
    Int.toNat ⌊(4 / 10 : ℚ) * (n : ℚ)⌋ = n * 4 / 10 := by
  simpa using floor_ratio_mul 4 10 n

/-- The template fallback always starts with the fixed literal, so it is
never the empty string. -/
theorem fallback_summary_ne_empty (customer_name : String)
    (product_list : List SItem) (total_amount : ℚ) :
    fallback_summary customer_name product_list total_amount ≠ "" := by
  intro h
  have h2 : (fallback_summary customer_name product_list total_amount).data
      = [] := by rw [h]
  rw [fallback_summary] at h2
  simp only [String.data_append, List.append_eq_nil] at h2
  exact (by decide : "This quotation for ".data ≠ []) h2.1.1.1.1.1.1.1.1

/-! ## Claim C8 -/

/-- Claim C8: for every source text, the derived decoding lengths of
`_dynamic_lengths` equal the documented formulas over the word count:
`max = min(configured_max, max(48, ⌊0.8 × wc⌋))`,
`min = min(configured_min, max(24, ⌊0.4 × wc⌋))`, with `min` reduced to
`max(16, max − 8)` whenever the derived `min ≥ max`. -/
theorem dynamic_lengths_matches_spec (maxLen minLen : Nat) (text : String) :
    dynamic_lengths maxLen minLen text =
      dynamicLengthsSpec maxLen minLen (max 1 (pyWordCount text)) := by
  simp only [dynamic_lengths, dynamicLengthsSpec, floor_eight_tenths,
    floor_four_tenths, ge_iff_le]

/-! ## Claim C1 -/

/-- Claim C1: for every input, `generate_quote_summary` returns without
raising (it is a total function into `String`); any failure of the learned
step — unavailable pipeline or exception during invocation — yields the
deterministic template fallback; and the result is non-empty, under the
modelling assumption that a successful invocation of the external
summarization pipeline produces text that is non-empty after trimming. -/
theorem generate_quote_summary_total_spec (maxLen minLen : Nat)
    (modelName : String) (pipe : Option (String → Nat → Nat → Option String))
    (customer_name : String) (product_list : List SItem) (total_amount : ℚ)
    (hmodel : ∀ f t a b s, pipe = some f → f t a b = some s → s.trim ≠ "") :
    generate_quote_summary maxLen minLen modelName pipe customer_name
        product_list total_amount ≠ ""
    ∧ (pipe = none →
        generate_quote_summary maxLen minLen modelName pipe customer_name
            product_list total_amount =
          fallback_summary customer_name product_list total_amount)
    ∧ (∀ f, pipe = some f →
        f (modelInputText modelName customer_name product_list total_amount)
            (dynamic_lengths maxLen minLen
              (modelInputText modelName customer_name product_list
                total_amount)).1
            (dynamic_lengths maxLen minLen
              (modelInputText modelName customer_name product_list
                total_amount)).2 = none →
        generate_quote_summary maxLen minLen modelName pipe customer_name
            product_list total_amount =
          fallback_summary customer_name product_list total_amount) := by
  refine ⟨?_, ?_, ?_⟩
  · cases hp : pipe with
    | none =>
      simp only [generate_quote_summary]
      exact fallback_summary_ne_empty customer_name product_list total_amount
    | some f =>
      simp only [generate_quote_summary]
      cases hf : f (modelInputText modelName customer_name product_list
          total_amount)
          (dynamic_lengths maxLen minLen
            (modelInputText modelName customer_name product_list
              total_amount)).1
          (dynamic_lengths maxLen minLen
            (modelInputText modelName customer_name product_list
              total_amount)).2 with
      | none =>
        simp only [modelInputText] at hf
        simp only [hf]
        exact fallback_summary_ne_empty customer_name product_list total_amount
      | some out =>
        simp only [modelInputText] at hf
        simp only [hf]
        exact hmodel f _ _ _ out hp hf
  · intro hp
    subst hp
    rfl
  · intro f hp hf
    subst hp
    simp only [generate_quote_summary, modelInputText] at hf ⊢
    simp only [hf]

/-- Witness for C1: with the learned path unavailable, the concrete call
returns a non-empty string. -/
theorem generate_quote_summary_total_spec_witness :
    generate_quote_summary 140 60 "t5-small" none "Acme" [] 0 ≠ "" :=
  (generate_quote_summary_total_spec 140 60 "t5-small" none "Acme" [] 0
    (fun _ _ _ _ _ hf => by cases hf)).1

/-! ## Claim C2 -/

set_option maxRecDepth 4000 in
/-- Counterexample to C2 as stated: on the specification's concrete input
(one item, quantity 2), the fallback output does NOT contain
`"2 item type(s)"` — the count in the template is the length of the item
list (here 1), not a quantity-weighted count. -/
theorem fallback_summary_count_counterexample :
    hasSub (generate_quote_summary 140 60 "t5-small" none "Acme" [wItem] 500)
      "2 item type(s)" = false := by
  with_unfolding_all rfl

/-- Claim C2 (amended): when the learned path is unavailable,
`generate_quote_summary` returns the deterministic fallback; on the
concrete input the result contains `"Acme"`, `"1 item type(s)"` (the count
is the number of entries of the item list), `"Window A"`, and
`"$500.00"`. -/
theorem fallback_summary_contents (maxLen minLen : Nat) (modelName : String) :
    (∀ (customer_name : String) (product_list : List SItem) (total : ℚ),
      generate_quote_summary maxLen minLen modelName none customer_name
          product_list total =
        fallback_summary customer_name product_list total)
    ∧ hasSub (generate_quote_summary 140 60 "t5-small" none "Acme" [wItem] 500)
        "Acme" = true
    ∧ hasSub (generate_quote_summary 140 60 "t5-small" none "Acme" [wItem] 500)
        "1 item type(s)" = true
    ∧ hasSub (generate_quote_summary 140 60 "t5-small" none "Acme" [wItem] 500)
        "Window A" = true
    ∧ hasSub (generate_quote_summary 140 60 "t5-small" none "Acme" [wItem] 500)
        "$500.00" = true := by
  refine ⟨fun _ _ _ => rfl, ?_, ?_, ?_, ?_⟩
  · with_unfolding_all rfl
  · with_unfolding_all rfl
  · with_unfolding_all rfl
  · with_unfolding_all rfl

/-! ## Claim C3 -/

/-- Claim C3: `predict_quote_total` returns 0.0 on the empty item list for
every possible loaded model (the prediction is never consulted); every
result is non-negative; and on a non-empty list the result is exactly the
two-decimal rounding of the sum of the per-item predictions clamped at 0. -/
theorem predict_quote_total_spec (model : PredRow → ℚ)
    (product_list : List PredItem) :
    predict_quote_total model [] = 0
    ∧ 0 ≤ predict_quote_total model product_list
    ∧ (product_list ≠ [] →
        predict_quote_total model product_list =
          pyRound2 (((product_list.map toPredRow).map
            fun r => max (model r) 0).sum)) := by
  refine ⟨rfl, ?_, ?_⟩
  · by_cases h : product_list = []
    · subst h
      simp [predict_quote_total]
    · rw [predict_quote_total]
      simp only [List.map_eq_nil_iff, h, if_false]
      apply pyRound2_nonneg
      apply List.sum_nonneg
      intro x hx
      rcases List.mem_map.mp hx with ⟨r, _, rfl⟩
      exact le_max_right _ _
  · intro h
    rw [predict_quote_total]
    simp only [List.map_eq_nil_iff, h, if_false]

/-- Witness for C3: with a model that predicts −5 per row, a one-item quote
evaluates to the clamped-and-rounded sum. -/
theorem predict_quote_total_spec_witness :
    predict_quote_total negModel [({} : PredItem)] =
      pyRound2 ((([({} : PredItem)].map toPredRow).map
        fun r => max (negModel r) 0).sum) :=
  (predict_quote_total_spec negModel [({} : PredItem)]).2.2
    (List.cons_ne_nil _ _)

/-! ## Claim C6 -/

/-- Counterexample to C6 as stated: a call on which both acquisition
attempts fail (2 attempts, no pipeline) does NOT make acquisition
unavailable for the rest of the process — the very next call re-attempts
acquisition (1 attempt, not 0) and can succeed. -/
theorem load_pipeline_failure_not_sticky :
    load_pipeline_result true ⟨none, none⟩ ⟨none, none⟩ = none
    ∧ load_pipeline_attempts true ⟨none, none⟩ ⟨none, none⟩ = 2
    ∧ load_pipeline_attempts true ⟨some 7, none⟩
        (load_pipeline_state true ⟨none, none⟩ ⟨none, none⟩) = 1
    ∧ load_pipeline_result true ⟨some 7, none⟩
        (load_pipeline_state true ⟨none, none⟩ ⟨none, none⟩) = some 7 :=
  ⟨rfl, rfl, rfl, rfl⟩

/-- Claim C6 (amended): only a successful acquisition is sticky. A call
that finds a cached pipeline returns it unchanged with no acquisition
attempt; whenever no pipeline is cached — including after any number of
failed calls — the call performs at least one acquisition attempt. -/
theorem load_pipeline_success_sticky (hfToken : Bool) (env : AcqEnv)
    (st : SumState) :
    (∀ p, st.pipeline = some p →
      load_pipeline hfToken env st = (some p, st, 0))
    ∧ (st.pipeline = none →
        1 ≤ load_pipeline_attempts hfToken env st) := by
  constructor
  · intro p hp
    simp [load_pipeline, hp]
  · intro hp
    rw [load_pipeline_attempts, load_pipeline, hp]
    cases env.anon with
    | some q => simp
    | none =>
      cases hfToken with
      | true =>
        cases env.tokenLoad with
        | some q => simp
        | none => simp
      | false => simp

/-- Witness for C6 (amended): a cached pipeline (id 5) is returned as-is
with zero attempts, and a cold call makes at least one attempt. -/
theorem load_pipeline_success_sticky_witness :
    load_pipeline false ⟨none, none⟩ ⟨some 5, none⟩ =
        (some 5, ⟨some 5, none⟩, 0)
    ∧ 1 ≤ load_pipeline_attempts false ⟨none, none⟩ ⟨none, none⟩ :=
  ⟨(load_pipeline_success_sticky false ⟨none, none⟩ ⟨some 5, none⟩).1 5 rfl,
    (load_pipeline_success_sticky false ⟨none, none⟩ ⟨none, none⟩).2 rfl⟩

/-! ## Claim C7 -/

/-- Claim C7: training fails (with the no-data error) exactly when the
inner join of line items with their referenced products is empty; a
successful training fits the model on exactly the joined rows, and every
joined row comes from a line item whose product reference resolves — rows
with a missing product reference are excluded. -/
theorem train_and_save_model_spec {α : Type} (fit : List TrainRow → α)
    (items : List QItemRow) (products : List ProductRow) :
    ((∃ e, train_and_save_model fit items products = .error e) ↔
      joinTrainingRows items products = [])
    ∧ (∀ a, train_and_save_model fit items products = .ok a →
        a = fit (joinTrainingRows items products))
    ∧ (∀ r, r ∈ joinTrainingRows items products →
        ∃ qi ∈ items, ∃ p ∈ products,
          qi.product_id = p.id ∧ r = mkTrainRow qi p) := by
  refine ⟨⟨?_, ?_⟩, ?_, ?_⟩
  · rintro ⟨e, he⟩
    by_cases h : joinTrainingRows items products = []
    · exact h
    · rw [train_and_save_model, if_neg h] at he
      cases he
  · intro h
    exact ⟨_, by rw [train_and_save_model, if_pos h]⟩
  · intro a ha
    by_cases h : joinTrainingRows items products = []
    · rw [train_and_save_model, if_pos h] at ha
      cases ha
    · rw [train_and_save_model, if_neg h] at ha
      cases ha
      rfl
  · intro r hr
    rw [joinTrainingRows, List.mem_flatMap] at hr
    rcases hr with ⟨qi, hqi, hmem⟩
    rcases List.mem_filterMap.mp hmem with ⟨p, hp, hif⟩
    by_cases hid : qi.product_id = p.id
    · rw [if_pos hid] at hif
      cases hif
      exact ⟨qi, hqi, p, hp, hid, rfl⟩
    · rw [if_neg hid] at hif
      cases hif

/-- Witness for C7: with one resolvable and one orphaned line item, the
fitted rows are exactly the single joined row. -/
theorem train_and_save_model_spec_witness :
    train_and_save_model id [qiMatched, qiOrphan] [prodOne] =
        .ok [mkTrainRow qiMatched prodOne]
    ∧ [mkTrainRow qiMatched prodOne] =
        id (joinTrainingRows [qiMatched, qiOrphan] [prodOne]) :=
  ⟨by with_unfolding_all rfl,
    (train_and_save_model_spec id [qiMatched, qiOrphan] [prodOne]).2.1
      [mkTrainRow qiMatched prodOne] (by with_unfolding_all rfl)⟩

/-! ## Claim C4 -/

/-- Counterexample to C4 as stated: on zero customers the result frame's
columns are the six feature columns — the documented `segment` column is
absent, so the columns are not the documented seven-column schema. -/
theorem segments_empty_schema_counterexample :
    (compute_customer_segments rangeClusterer 0 3 []).map Frame.cols =
        .ok featureCols
    ∧ "segment" ∉ featureCols
    ∧ featureCols ≠ outCols :=
  ⟨rfl, by decide, by decide⟩

/-- Claim C4 (amended): on a repository with zero customers,
`compute_customer_segments` returns — without raising — an empty result
whose columns are {customer_id, customer_name, total_quotes, total_value,
avg_value, days_since_last}; the `segment` column is not present on this
branch. -/
theorem compute_customer_segments_empty (clusterer : List (ℚ × ℚ × ℚ × ℚ) → List Nat)
    (now : Int) (k : Nat) :
    compute_customer_segments clusterer now k [] = .ok ⟨featureCols, []⟩ :=
  rfl

/-! ## Claim C5 -/

theorem rowLe_iff (a b : SegRow) : rowLe a b = true ↔ segOrder a b := by
  simp [rowLe, segOrder, Bool.or_eq_true, Bool.and_eq_true,
    decide_eq_true_eq, beq_iff_eq]

theorem rowLe_total (a b : SegRow) : rowLe a b = true ∨ rowLe b a = true := by
  rw [rowLe_iff, rowLe_iff]
  rcases lt_trichotomy a.segment b.segment with h | h | h
  · exact Or.inl (Or.inl h)
  · rcases le_total b.total_value a.total_value with h2 | h2
    · exact Or.inl (Or.inr ⟨h, h2⟩)
    · exact Or.inr (Or.inr ⟨h.symm, h2⟩)
  · exact Or.inr (Or.inl h)

theorem rowLe_trans (a b c : SegRow) (h1 : rowLe a b = true)
    (h2 : rowLe b c = true) : rowLe a c = true := by
  rw [rowLe_iff] at h1 h2 ⊢
  rcases h1 with h1 | ⟨h1e, h1v⟩
  · rcases h2 with h2 | ⟨h2e, _⟩
    · exact Or.inl (lt_trans h1 h2)
    · exact Or.inl (h2e ▸ h1)
  · rcases h2 with h2 | ⟨h2e, h2v⟩
    · exact Or.inl (h1e ▸ h2)
    · exact Or.inr ⟨h1e.trans h2e, le_trans h2v h1v⟩

/-- Counterexample to C5 as stated: a run in which all three ranked tiers
occur orders its rows `Dormant/Low`, `High-Value Frequent`, `Occasional` —
the segment labels are compared lexicographically as strings, so
`High-Value Frequent` is NOT first. -/
theorem segments_order_counterexample :
    (compute_customer_segments rangeClusterer 0 3 [custA, custB, custC]).map
        (fun f => f.rows.map SegRow.segment) =
      .ok ["Dormant/Low", "High-Value Frequent", "Occasional"] := by
  with_unfolding_all rfl

/-- Claim C5 (amended): every successful result of
`compute_customer_segments` is ordered by segment label ascending in
lexicographic string order (which places "Dormant/Low" before "High-Value
Frequent" before "Occasional" before any generic "Segment N"), and within
equal labels by total_value descending. -/
theorem compute_customer_segments_sorted
    (clusterer : List (ℚ × ℚ × ℚ × ℚ) → List Nat) (now : Int) (k : Nat)
    (customers : List CustomerRec) (f : Frame)
    (h : compute_customer_segments clusterer now k customers = .ok f) :
    f.rows.Pairwise segOrder := by
  simp only [compute_customer_segments] at h
  split at h
  · cases h
    exact List.Pairwise.nil
  · split at h
    · cases h
    · split at h
      · cases h
      · cases h
        have hp := sortS_pairwise rowLe rowLe_total rowLe_trans
          ((build_feature_frame now customers).zip
              (clusterer ((build_feature_frame now customers).map featVec)) |>.map
            fun rc =>
              mkSegRow rc.1
                (label_clusters
                  ((build_feature_frame now customers).zip
                    (clusterer ((build_feature_frame now customers).map featVec)))
                  rc.2))
        exact (hp.imp fun hab => (rowLe_iff _ _).mp hab)

/-- Witness for C5 (amended): the concrete three-customer run is sorted in
the amended order. -/
theorem compute_customer_segments_sorted_witness :
    List.Pairwise segOrder
      (Frame.rows ⟨outCols, [segRowC, segRowA, segRowB]⟩) :=
  compute_customer_segments_sorted rangeClusterer 0 3 [custA, custB, custC]
    ⟨outCols, [segRowC, segRowA, segRowB]⟩ (by with_unfolding_all rfl)

/-! ## Claim C10 -/

/-- Claim C10: with at least one customer but fewer customers than `k`, the
segmentation propagates the k-means error (too few samples) instead of
returning a labelled result; the empty-frame branch is reserved for zero
customers. -/
theorem compute_customer_segments_too_few
    (clusterer : List (ℚ × ℚ × ℚ × ℚ) → List Nat) (now : Int) (k : Nat)
    (customers : List CustomerRec) (hne : customers ≠ [])
    (hlt : customers.length < k) :
    compute_customer_segments clusterer now k customers =
      .error "n_samples should be >= n_clusters" := by
  have hdf : build_feature_frame now customers ≠ [] := by
    simpa [build_feature_frame, List.map_eq_nil_iff] using hne
  have hk : k ≠ 0 := by omega
  have hlen : (build_feature_frame now customers).length < k := by
    simpa [build_feature_frame, List.length_map] using hlt
  simp only [compute_customer_segments, if_neg hdf, if_neg hk, if_pos hlen]

/-- Witness for C10: one customer with `k = 3` yields the k-means error. -/
theorem compute_customer_segments_too_few_witness :
    compute_customer_segments rangeClusterer 0 3 [custA] =
      .error "n_samples should be >= n_clusters" :=
  compute_customer_segments_too_few rangeClusterer 0 3 [custA]
    (List.cons_ne_nil _ _) (by decide)

/-! ## Claim C9 -/

theorem zip_map_self (l : List α) (g : α → β) :
    l.zip (l.map g) = l.map fun x => (x, g x) := by
  induction l with
  | nil => rfl
  | cons h t ih => simp [List.zip_cons_cons, ih]

theorem aggMeans_congr (dfc1 dfc2 : List (FeatureRow × Nat))
    (p : dfc1.Perm dfc2) (j : Nat) : aggMeans dfc1 j = aggMeans dfc2 j := by
  have hg : (clusterGroup dfc1 j).Perm (clusterGroup dfc2 j) := p.filter _
  have hlen := hg.length_eq
  have h1 := ((hg.map fun rc => rc.1.total_value).sum_eq)
  have h2 := ((hg.map fun rc => ((rc.1.total_quotes : ℚ))).sum_eq)
  have h3 := ((hg.map fun rc => ((rc.1.days_since_last : ℚ))).sum_eq)
  simp only [aggMeans, hlen, h1, h2, h3]

theorem presentClusters_congr (dfc1 dfc2 : List (FeatureRow × Nat))
    (p : dfc1.Perm dfc2) : presentClusters dfc1 = presentClusters dfc2 :=
  sortS_nat_eq_of_perm _ _ ((p.map Prod.snd).dedup)

theorem sortedAgg_congr (dfc1 dfc2 : List (FeatureRow × Nat))
    (p : dfc1.Perm dfc2) : sortedAgg dfc1 = sortedAgg dfc2 := by
  have hmeans : aggMeans dfc1 = aggMeans dfc2 :=
    funext (aggMeans_congr dfc1 dfc2 p)
  rw [sortedAgg, sortedAgg, presentClusters_congr dfc1 dfc2 p, hmeans]

theorem label_clusters_congr (dfc1 dfc2 : List (FeatureRow × Nat))
    (p : dfc1.Perm dfc2) : label_clusters dfc1 = label_clusters dfc2 := by
  funext c
  rw [label_clusters, label_clusters, sortedAgg_congr dfc1 dfc2 p]

/-- Under a clusterer whose assignment is a permutation-invariant function
of the row contents, the labelled output rows of two permuted runs are
permutations of each other. -/
theorem seg_rows_perm (g : List (ℚ × ℚ × ℚ × ℚ) → (ℚ × ℚ × ℚ × ℚ) → Nat)
    (clusterer : List (ℚ × ℚ × ℚ × ℚ) → List Nat) (now : Int)
    (c1 c2 : List CustomerRec)
    (hfact : ∀ rows, clusterer rows = rows.map (g rows))
    (hinv : ∀ r1 r2, r1.Perm r2 → g r1 = g r2)
    (hperm : c1.Perm c2) :
    (seg_rows clusterer now c1).Perm (seg_rows clusterer now c2) := by
  have dfp : (build_feature_frame now c1).Perm (build_feature_frame now c2) :=
    hperm.map (featureRow now)
  have hg : g ((build_feature_frame now c1).map featVec) =
      g ((build_feature_frame now c2).map featVec) :=
    hinv _ _ (dfp.map featVec)
  have e1 : (build_feature_frame now c1).zip
        (clusterer ((build_feature_frame now c1).map featVec)) =
      (build_feature_frame now c1).map fun r =>
        (r, g ((build_feature_frame now c1).map featVec) (featVec r)) := by
    rw [hfact, List.map_map, zip_map_self]
    rfl
  have e2 : (build_feature_frame now c2).zip
        (clusterer ((build_feature_frame now c2).map featVec)) =
      (build_feature_frame now c2).map fun r =>
        (r, g ((build_feature_frame now c1).map featVec) (featVec r)) := by
    rw [hfact, List.map_map, zip_map_self, hg]
    rfl
  have dfcp : ((build_feature_frame now c1).zip
        (clusterer ((build_feature_frame now c1).map featVec))).Perm
      ((build_feature_frame now c2).zip
        (clusterer ((build_feature_frame now c2).map featVec))) := by
    rw [e1, e2]
    exact dfp.map _
  have hlab := label_clusters_congr _ _ dfcp
  rw [seg_rows, seg_rows]
  have rowsp : (((build_feature_frame now c1).zip
        (clusterer ((build_feature_frame now c1).map featVec))).map
          fun rc => mkSegRow rc.1
            (label_clusters ((build_feature_frame now c1).zip
              (clusterer ((build_feature_frame now c1).map featVec))) rc.2)).Perm
      (((build_feature_frame now c2).zip
        (clusterer ((build_feature_frame now c2).map featVec))).map
          fun rc => mkSegRow rc.1
            (label_clusters ((build_feature_frame now c2).zip
              (clusterer ((build_feature_frame now c2).map featVec))) rc.2)) := by
    rw [← hlab]
    exact dfcp.map _
  exact ((sortS_perm rowLe _).trans rowsp).trans (sortS_perm rowLe _).symm

/-- Counterexample to C9 as stated: the clustering step is an external
seeded k-means whose partition may follow row positions rather than row
contents; under such a conforming outcome (first two rows together, third
alone), permuting the customer read order changes customer 1's label from
"High-Value Frequent" to "Occasional". -/
theorem segments_perm_counterexample :
    ([custM, custL, custH].Perm [custM, custH, custL])
    ∧ segListOf (compute_customer_segments posClusterer 0 2
        [custM, custH, custL]) =
      [(2, "High-Value Frequent"), (1, "High-Value Frequent"),
        (3, "Occasional")]
    ∧ segListOf (compute_customer_segments posClusterer 0 2
        [custM, custL, custH]) =
      [(2, "High-Value Frequent"), (1, "Occasional"), (3, "Occasional")] :=
  ⟨(List.Perm.swap custH custL []).cons custM,
    by with_unfolding_all rfl, by with_unfolding_all rfl⟩

/-- Claim C9 (amended): segment assignment is invariant under permuting the
customer order provided the external clustering step assigns cluster ids
as a function of row contents that is itself invariant under permuting its
input rows (the repository's own feature building, aggregation, ranking
and labelling are all order-invariant; the seeded external k-means does
not guarantee such equivariance). -/
theorem compute_customer_segments_perm_invariant
    (g : List (ℚ × ℚ × ℚ × ℚ) → (ℚ × ℚ × ℚ × ℚ) → Nat)
    (clusterer : List (ℚ × ℚ × ℚ × ℚ) → List Nat) (now : Int) (k : Nat)
    (c1 c2 : List CustomerRec) (f1 f2 : Frame)
    (hfact : ∀ rows, clusterer rows = rows.map (g rows))
    (hinv : ∀ r1 r2, r1.Perm r2 → g r1 = g r2)
    (hperm : c1.Perm c2)
    (h1 : compute_customer_segments clusterer now k c1 = .ok f1)
    (h2 : compute_customer_segments clusterer now k c2 = .ok f2) :
    (f1.rows.map fun r => (r.customer_id, r.customer_name, r.segment)).Perm
      (f2.rows.map fun r => (r.customer_id, r.customer_name, r.segment)) := by
  simp only [compute_customer_segments] at h1 h2
  split at h1
  · split at h2
    · cases h1
      cases h2
      exact List.Perm.refl _
    · rename_i hdf1 hdf2
      have dfp := hperm.map (featureRow now)
      simp only [build_feature_frame] at hdf1
      rw [hdf1] at dfp
      exact absurd (List.Perm.eq_nil dfp.symm)
        (by simpa [build_feature_frame] using hdf2)
  · split at h2
    · rename_i hdf1 hdf2
      have dfp := hperm.map (featureRow now)
      simp only [build_feature_frame] at hdf2
      rw [hdf2] at dfp
      exact absurd (List.Perm.eq_nil dfp)
        (by simpa [build_feature_frame] using hdf1)
    · split at h1
      · cases h1
      · split at h1
        · cases h1
        · split at h2
          · cases h2
          · split at h2
            · cases h2
            · cases h1
              cases h2
              exact (seg_rows_perm g clusterer now c1 c2 hfact hinv hperm).map _

/-- Witness for C9 (amended): a content-determined clusterer (split at
total_value 500) applied to two permuted two-customer lists, both runs
succeeding, yields the same (id, name, label) multiset. -/
theorem compute_customer_segments_perm_invariant_witness :
    ([segRowA, segRowB].map
      fun r => (r.customer_id, r.customer_name, r.segment)).Perm
      ([segRowA, segRowB].map
        fun r => (r.customer_id, r.customer_name, r.segment)) :=
  compute_customer_segments_perm_invariant valueAssign valueClusterer 0 2
    [custA, custB] [custB, custA] ⟨outCols, [segRowA, segRowB]⟩
    ⟨outCols, [segRowA, segRowB]⟩ (fun _ => rfl) (fun _ _ _ => rfl)
    ((List.Perm.swap custB custA []))
    (by with_unfolding_all rfl) (by with_unfolding_all rfl)

